import Mathlib

/-!
Verification of the May memory-and-response pipeline
(`src/core/memory_database.py`, class `MayConversationalAI`).

The Python code is shallowly embedded as executable Lean definitions:

* message text is `String`; Python's `str.lower` is `lowerString`,
  Python's substring test `a in b` is `containsSubstr`, Python's
  whitespace `str.split()` is `wordsOf` (all implemented on the
  character list of the string so that the kernel can evaluate them);
* instants (`datetime.now()` values) are modelled as `Nat` microsecond
  counts, rendered in decimal where the source formats the instant into
  a string; `timedelta.days` is flooring division by the microseconds
  of one day;
* the stream of `random.random()` results consumed by the response
  composer is modelled as an explicit draw stream `u : Nat → Draw`
  together with a cursor index, where a `Draw` is a nonnegative
  rational in `[0,1)` given as a numerator/denominator pair;
  `random.choice(seq)` selects index `⌊q * len(seq)⌋` from one draw
  `q`, and each `random.random()` call consumes exactly one draw in
  source order;
* the sqlite `conversations` table is a `List ConversationMemory` in
  insertion order, the singleton `user_profile` row is an
  `Option UserProfile`; failure of an individual storage statement is
  injected through an explicit boolean oracle, and a raised Python
  exception is an `Except String` value which the orchestrator
  pattern-matches on, mirroring its `try`/`except` block.
-/

/-- Python's `str.lower`, character by character. -/
def lowerString (s : String) : String := String.mk (s.data.map Char.toLower)

/-- Decides whether the first character list is a leading segment of the
second one (used to implement the substring test). -/
def charsHasPre : List Char → List Char → Bool
  | [], _ => true
  | _ :: _, [] => false
  | a :: as, b :: bs => a = b && charsHasPre as bs

/-- Decides whether `needle` occurs contiguously inside the list. -/
def charsHasSub (needle : List Char) : List Char → Bool
  | [] => needle.isEmpty
  | c :: cs => charsHasPre needle (c :: cs) || charsHasSub needle cs

/-- Python's `needle in hay` on strings: contiguous substring test. -/
def containsSubstr (needle hay : String) : Bool :=
  charsHasSub needle.data hay.data

/-- Helper of `wordsOf`: walks the characters keeping the (reversed)
current word in the accumulator. -/
def splitWordsAux : List Char → List Char → List String
  | [], acc => if acc.isEmpty then [] else [String.mk acc.reverse]
  | c :: cs, acc =>
      if c.isWhitespace then
        (if acc.isEmpty then [] else [String.mk acc.reverse]) ++ splitWordsAux cs []
      else splitWordsAux cs (c :: acc)

/-- Python's `message.split()`: split on whitespace runs, dropping empty
pieces. -/
def wordsOf (s : String) : List String := splitWordsAux s.data []

/-- Python's `str.strip()`: drop leading and trailing whitespace. -/
def stripString (s : String) : String :=
  String.mk (((s.data.dropWhile Char.isWhitespace).reverse.dropWhile Char.isWhitespace).reverse)

/-- Python's `" ".join(parts)`. -/
def joinWithSpace : List String → String
  | [] => ""
  | [s] => s
  | s :: rest => s ++ " " ++ joinWithSpace rest

/-- Python's `json.dumps` applied to a list of tag strings, which is how
`context_tags` is serialized into the `conversations` table. -/
def serializeTags (tags : List String) : String :=
  "[" ++ String.intercalate ", " (tags.map (fun t => "\"" ++ t ++ "\"")) ++ "]"

/-- One result of `random.random()`: a nonnegative rational in `[0,1)`
represented as numerator over denominator. -/
structure Draw where
  num : Nat
  den : Nat
deriving DecidableEq

/-- Decides `q < a / b` for a draw `q` and a rational threshold `a / b`,
by cross-multiplication. -/
def Draw.ltFrac (q : Draw) (a b : Nat) : Bool := b * q.num < a * q.den

/-- Python's `random.choice` on a sequence of length `n` driven by one
uniform draw `q`: index `⌊q * n⌋` (clamped into range for safety at the
boundary). -/
def choiceIdx (n : Nat) (q : Draw) : Nat := min (n - 1) (q.num * n / q.den)

/-- Fixed positive-word table of `analyze_message_sentiment`. -/
def positive_words : List String :=
  ["happy", "good", "great", "love", "wonderful", "excited", "amazing"]

/-- Fixed negative-word table of `analyze_message_sentiment`. -/
def negative_words : List String :=
  ["sad", "bad", "terrible", "hate", "awful", "angry", "frustrated"]

/-- Number of words of the fixed positive list occurring in the
lower-cased message (`pos_count` in the source). -/
def posCount (message : String) : Nat :=
  (positive_words.filter (fun word => containsSubstr word (lowerString message))).length

/-- Number of words of the fixed negative list occurring in the
lower-cased message (`neg_count` in the source). -/
def negCount (message : String) : Nat :=
  (negative_words.filter (fun word => containsSubstr word (lowerString message))).length

/-- `MayConversationalAI.analyze_message_sentiment`. -/
def analyze_message_sentiment (message : String) : String :=
  if negCount message < posCount message then "positive"
  else if posCount message < negCount message then "negative"
  else "neutral"

/-- Fixed category/keyword table of `extract_topics`, in the source's
declaration order. -/
def topic_keywords : List (String × List String) :=
  [("family", ["family", "mom", "dad", "sister", "brother", "parent", "child"]),
   ("work", ["job", "work", "career", "boss", "colleague", "project"]),
   ("learning", ["learn", "study", "school", "education", "knowledge"]),
   ("faith", ["god", "prayer", "faith", "belief", "church", "spiritual"]),
   ("relationships", ["friend", "relationship", "love", "dating", "marriage"]),
   ("health", ["health", "sick", "doctor", "exercise", "wellness"])]

/-- `MayConversationalAI.extract_topics`. -/
def extract_topics (message : String) : List String :=
  let message_lower := lowerString message
  let topics := (topic_keywords.filter
    (fun p => p.2.any (fun keyword => containsSubstr keyword message_lower))).map Prod.fst
  if topics.isEmpty then ["general"] else topics

/-- Categories whose keyword list has at least one keyword occurring in
the lower-cased message, in table order; stated from the specification's
description of the topic extractor, for comparison with
`extract_topics`. -/
def matchedTopics (message : String) : List String :=
  (topic_keywords.filter
    (fun p => p.2.any (fun keyword => containsSubstr keyword (lowerString message)))).map Prod.fst

/-- Personal-topic table of `calculate_importance`. -/
def personal_topics : List String := ["family", "faith", "relationships", "health"]

/-- `MayConversationalAI.calculate_importance`. -/
def calculate_importance (message : String) (topics : List String) (sentiment : String) : Nat :=
  let importance := 5
  let importance := if sentiment = "positive" ∨ sentiment = "negative"
    then importance + 2 else importance
  let importance := if ∃ topic ∈ topics, topic ∈ personal_topics
    then importance + 2 else importance
  let importance := if containsSubstr "?" message then importance + 1 else importance
  let importance := if 20 < (wordsOf message).length then importance + 1 else importance
  min 10 (max 1 importance)

/-- Unclamped importance heuristic sum, stated from the specification:
base 5, +2 for emotional sentiment, +2 for a personal topic, +1 for a
question mark, +1 for more than 20 whitespace-split words. -/
def importanceBase (message : String) (topics : List String) (sentiment : String) : Nat :=
  5 + (if sentiment = "positive" ∨ sentiment = "negative" then 2 else 0)
    + (if ∃ topic ∈ topics, topic ∈ personal_topics then 2 else 0)
    + (if containsSubstr "?" message then 1 else 0)
    + (if 20 < (wordsOf message).length then 1 else 0)

/-- Row of the sqlite `conversations` table / the `ConversationMemory`
dataclass. -/
structure ConversationMemory where
  id : String
  user_message : String
  may_response : String
  topic : String
  sentiment : String
  importance : Nat
  timestamp : Nat
  context_tags : List String
deriving DecidableEq

/-- The `UserProfile` dataclass / row of the sqlite `user_profile`
table. -/
structure UserProfile where
  name : String
  interests : List String
  values : List String
  conversation_patterns : List (String × Nat)
  last_interaction : Nat
  relationship_level : Nat
deriving DecidableEq

/-- Insertion step of `sortRows`. -/
def insertSorted (le : α → α → Bool) (a : α) : List α → List α
  | [] => [a]
  | b :: bs => if le a b then a :: b :: bs else b :: insertSorted le a bs

/-- Insertion sort used to model the store's `ORDER BY` clause. -/
def sortRows (le : α → α → Bool) : List α → List α
  | [] => []
  | a :: as => insertSorted le a (sortRows le as)

/-- Comparator for `ORDER BY importance DESC, timestamp DESC`: row `a`
may precede row `b`. -/
def convBefore (a b : ConversationMemory) : Bool :=
  decide (b.importance < a.importance) ||
    (decide (a.importance = b.importance) && decide (b.timestamp ≤ a.timestamp))

/-- One per-topic query of `find_relevant_memories`:
`SELECT * FROM conversations WHERE topic = ? OR context_tags LIKE ?
ORDER BY importance DESC, timestamp DESC LIMIT ?`. -/
def queryTopic (db : List ConversationMemory) (topic : String) (limit : Nat) :
    List ConversationMemory :=
  (sortRows convBefore (db.filter (fun row =>
    decide (row.topic = topic) || containsSubstr topic (serializeTags row.context_tags)))).take
    limit

/-- `MayConversationalAI.find_relevant_memories` (its default limit is
3, passed explicitly by callers of this model). -/
def find_relevant_memories (db : List ConversationMemory) (message : String) (limit : Nat) :
    List ConversationMemory :=
  let topics := extract_topics message
  let relevant_memories := (topics.map (fun topic => queryTopic db topic limit)).foldr
    (· ++ ·) []
  relevant_memories.take limit

/-- The retriever as the specification words it: extract topics, query
the store per topic in extractor order capped at `limit` per topic,
concatenate in topic order without deduplication, truncate to
`limit`. -/
def find_relevant_spec (db : List ConversationMemory) (message : String) (limit : Nat) :
    List ConversationMemory :=
  (((extract_topics message).map (fun topic =>
      (sortRows convBefore (db.filter (fun row =>
        decide (row.topic = topic) ||
          containsSubstr topic (serializeTags row.context_tags)))).take limit)).foldr
    (· ++ ·) []).take limit

/-- Topic-keyed response pools of `generate_core_response`, in source
order. -/
def responses_by_topic : List (String × List String) :=
  [("family",
    ["Family is such a blessing. How has your family been doing?",
     "There's nothing quite like the bond of family. What's been on your heart about them?",
     "Family relationships can be both wonderful and challenging. I'm here to listen."]),
   ("faith",
    ["Faith can be such a source of strength and guidance. What's been stirring in your spirit?",
     "I believe there's great wisdom in seeking something greater than ourselves. How has that been for you?",
     "Prayer and reflection can bring such peace. What's been in your prayers lately?"]),
   ("work",
    ["Work can be fulfilling when it aligns with our values. How are you feeling about your current path?",
     "It's important to find purpose in what we do. What gives you satisfaction in your work?",
     "Balancing work with the rest of life is so important. How are you managing that?"]),
   ("learning",
    ["I love that you're always growing and learning! What's captured your curiosity lately?",
     "Knowledge is such a gift. What new insights have you discovered?",
     "Learning together makes the journey so much richer. What would you like to explore?"])]

/-- Fallback response pool of `generate_core_response`. -/
def generic_responses : List String :=
  ["I'm really interested to hear more about this. What's been on your mind?",
   "That sounds meaningful to you. Could you tell me more?",
   "I appreciate you sharing that with me. How are you feeling about it?"]

/-- Openers prepended for negative sentiment. -/
def supportive_starters : List String :=
  ["I can sense this is weighing on you. ",
   "That sounds challenging. ",
   "I'm sorry you're going through this. "]

/-- Openers prepended for positive sentiment. -/
def encouraging_starters : List String :=
  ["It's wonderful to hear the joy in your words! ",
   "That sounds really positive! ",
   "I love your enthusiasm about this! "]

/-- `MayConversationalAI.generate_core_response`. Returns the clause and
the advanced draw cursor; the two `random.choice` calls of a non-neutral
branch consume the opener draw first, then the template draw, matching
Python's left-to-right evaluation. -/
def generate_core_response (message : String) (sentiment : String) (topics : List String)
    (u : Nat → Draw) (k : Nat) : String × Nat :=
  let primary_topic := topics.headD "general"
  let base_responses := (responses_by_topic.lookup primary_topic).getD generic_responses
  if sentiment = "negative" then
    (supportive_starters.getD (choiceIdx supportive_starters.length (u k)) "" ++
      base_responses.getD (choiceIdx base_responses.length (u (k + 1))) "", k + 2)
  else if sentiment = "positive" then
    (encouraging_starters.getD (choiceIdx encouraging_starters.length (u k)) "" ++
      base_responses.getD (choiceIdx base_responses.length (u (k + 1))) "", k + 2)
  else
    (base_responses.getD (choiceIdx base_responses.length (u k)) "", k + 1)

/-- Fixed prompt pool of `generate_conversation_spark`. -/
def sparks : List String :=
  ["Have you considered how this connects to your long-term goals?",
   "What would you tell a close friend who was in a similar situation?",
   "I'm curious about what this means for your future plans.",
   "What aspects of this situation are you most grateful for?",
   "How does this align with what's most important to you?",
   "What wisdom would you want to pass on about this experience?"]

/-- `MayConversationalAI.generate_conversation_spark` (the `topics`
argument is unused by the source as well). -/
def generate_conversation_spark (topics : List String) (u : Nat → Draw) (k : Nat) :
    String × Nat :=
  (sparks.getD (choiceIdx sparks.length (u k)) "", k + 1)

/-- Microseconds in one day, the granularity of modelled instants. -/
def microsPerDay : Nat := 86400000000

/-- Python `(now - timestamp).days` for instants in microseconds. -/
def daysBetween (now timestamp : Nat) : Nat := (now - timestamp) / microsPerDay

/-- Time phrase of the memory-callback clause. -/
def timeRefOf (days_ago : Nat) : String :=
  if days_ago = 0 then "earlier today"
  else if days_ago = 1 then "yesterday"
  else if days_ago < 7 then toString days_ago ++ " days ago"
  else "recently"

/-- Callback sentence referencing the first retrieved memory. -/
def memoryCallback (memory : ConversationMemory) (now : Nat) : String :=
  "This reminds me of when you mentioned " ++ memory.topic ++ " " ++
    timeRefOf (daysBetween now memory.timestamp) ++ ". "

/-- `MayConversationalAI.generate_thoughtful_response`. The callback
gate draws only when the retrieved history is non-empty (Python's
short-circuiting `if relevant_memories and random.random() < 0.4`); the
spark gate always draws after the core clause. -/
def generate_thoughtful_response (db : List ConversationMemory) (message : String)
    (now : Nat) (u : Nat → Draw) (k : Nat) : String × Nat :=
  let relevant_memories := find_relevant_memories db message 3
  let sentiment := analyze_message_sentiment message
  let topics := extract_topics message
  let cb : List String × Nat :=
    match relevant_memories with
    | [] => ([], k)
    | memory :: _ =>
        if (u k).ltFrac 2 5 then ([memoryCallback memory now], k + 1)
        else ([], k + 1)
  let core := generate_core_response message sentiment topics u cb.2
  let sp : List String × Nat :=
    if (u core.2).ltFrac 3 10 then
      (cb.1 ++ [core.1] ++ [(generate_conversation_spark topics u (core.2 + 1)).1], core.2 + 2)
    else (cb.1 ++ [core.1], core.2 + 1)
  (stripString (joinWithSpace sp.1), sp.2)

/-- Reduction modulo `2 ^ 32`, the word size of SHA-256. -/
def u32 (n : Nat) : Nat := n % 4294967296

/-- Right rotation of a 32-bit word. -/
def rotr32 (n x : Nat) : Nat := u32 ((x >>> n) ||| (x <<< (32 - n)))

/-- SHA-256 Σ0. -/
def bigS0 (x : Nat) : Nat := rotr32 2 x ^^^ rotr32 13 x ^^^ rotr32 22 x

/-- SHA-256 Σ1. -/
def bigS1 (x : Nat) : Nat := rotr32 6 x ^^^ rotr32 11 x ^^^ rotr32 25 x

/-- SHA-256 σ0. -/
def smallS0 (x : Nat) : Nat := rotr32 7 x ^^^ rotr32 18 x ^^^ (x >>> 3)

/-- SHA-256 σ1. -/
def smallS1 (x : Nat) : Nat := rotr32 17 x ^^^ rotr32 19 x ^^^ (x >>> 10)

/-- SHA-256 choose function. -/
def chFn (x y z : Nat) : Nat := (x &&& y) ^^^ ((x ^^^ 4294967295) &&& z)

/-- SHA-256 majority function. -/
def majFn (x y z : Nat) : Nat := (x &&& y) ^^^ (x &&& z) ^^^ (y &&& z)

/-- SHA-256 round constants (in decimal). -/
def K256 : List Nat :=
  [1116352408, 1899447441, 3049323471, 3921009573,
   961987163, 1508970993, 2453635748, 2870763221,
   3624381080, 310598401, 607225278, 1426881987,
   1925078388, 2162078206, 2614888103, 3248222580,
   3835390401, 4022224774, 264347078, 604807628,
   770255983, 1249150122, 1555081692, 1996064986,
   2554220882, 2821834349, 2952996808, 3210313671,
   3336571891, 3584528711, 113926993, 338241895,
   666307205, 773529912, 1294757372, 1396182291,
   1695183700, 1986661051, 2177026350, 2456956037,
   2730485921, 2820302411, 3259730800, 3345764771,
   3516065817, 3600352804, 4094571909, 275423344,
   430227734, 506948616, 659060556, 883997877,
   958139571, 1322822218, 1537002063, 1747873779,
   1955562222, 2024104815, 2227730452, 2361852424,
   2428436474, 2756734187, 3204031479, 3329325298]

/-- SHA-256 initial hash state (in decimal). -/
def H256 : List Nat :=
  [1779033703, 3144134277, 1013904242, 2773480762,
   1359893119, 2600822924, 528734635, 1541459225]

/-- UTF-8 encoding of one code point. -/
def utf8Bytes (c : Char) : List Nat :=
  let n := c.toNat
  if n < 128 then [n]
  else if n < 2048 then [192 + n / 64, 128 + n % 64]
  else if n < 65536 then [224 + n / 4096, 128 + (n / 64) % 64, 128 + n % 64]
  else [240 + n / 262144, 128 + (n / 4096) % 64, 128 + (n / 64) % 64, 128 + n % 64]

/-- Python's `str.encode()`: UTF-8 bytes of the string. -/
def toBytes (s : String) : List Nat :=
  s.data.foldr (fun c acc => utf8Bytes c ++ acc) []

/-- Big-endian 8-byte encoding of the bit length, for SHA-256 padding. -/
def lengthBytes (len : Nat) : List Nat :=
  (List.range 8).map (fun i => (8 * len >>> (8 * (7 - i))) % 256)

/-- SHA-256 message padding to a multiple of 64 bytes. -/
def padMessage (msg : List Nat) : List Nat :=
  msg ++ [128] ++ List.replicate ((120 - (msg.length + 1) % 64) % 64) 0 ++
    lengthBytes msg.length

/-- Split a list into consecutive pieces of `n` elements. -/
def chunksOf (n : Nat) (l : List α) : List (List α) :=
  (List.range ((l.length + n - 1) / n)).map (fun i => (l.drop (i * n)).take n)

/-- Big-endian word from four bytes. -/
def bytesToWord : List Nat → Nat
  | [a, b, c, d] => ((a * 256 + b) * 256 + c) * 256 + d
  | _ => 0

/-- Big-endian bytes of one 32-bit word. -/
def wordBytes (w : Nat) : List Nat :=
  [(w >>> 24) % 256, (w >>> 16) % 256, (w >>> 8) % 256, w % 256]

/-- SHA-256 message schedule: extend 16 block words to 64. -/
def msgSchedule (w16 : List Nat) : List Nat :=
  (List.range 48).foldl (fun w _ =>
    let t := w.length
    w ++ [u32 (smallS1 (w.getD (t - 2) 0) + w.getD (t - 7) 0 +
      smallS0 (w.getD (t - 15) 0) + w.getD (t - 16) 0)]) w16

/-- One SHA-256 compression round on the eight-word working state. -/
def compressStep (st : List Nat) (kw : Nat × Nat) : List Nat :=
  match st with
  | [a, b, c, d, e, f, g, h] =>
      let t1 := u32 (h + bigS1 e + chFn e f g + kw.1 + kw.2)
      let t2 := u32 (bigS0 a + majFn a b c)
      [u32 (t1 + t2), a, b, c, u32 (d + t1), e, f, g]
  | other => other

/-- Process one 64-byte block into the hash state. -/
def processBlock (hs : List Nat) (block : List Nat) : List Nat :=
  let w := msgSchedule ((chunksOf 4 block).map bytesToWord)
  let st := (K256.zip w).foldl compressStep hs
  (hs.zip st).map (fun p => u32 (p.1 + p.2))

/-- SHA-256 digest bytes of a byte sequence. -/
def sha256bytes (msg : List Nat) : List Nat :=
  ((chunksOf 64 (padMessage msg)).foldl processBlock H256).foldr
    (fun w acc => wordBytes w ++ acc) []

/-- Lower-case hex character of a value below 16. -/
def hexDigit (n : Nat) : Char :=
  if n < 10 then Char.ofNat (48 + n) else Char.ofNat (87 + n)

/-- Two lower-case hex characters of one byte. -/
def byteToHex (b : Nat) : List Char := [hexDigit (b / 16), hexDigit (b % 16)]

/-- Python's `hashlib.sha256(s.encode()).hexdigest()`. -/
def sha256hex (s : String) : String :=
  String.mk ((sha256bytes (toBytes s)).foldr (fun b acc => byteToHex b ++ acc) [])

/-- Identifier of a saved turn:
`hashlib.sha256(f"{user_message}{may_response}{now}".encode()).hexdigest()[:16]`,
with the instant rendered in decimal. -/
def convId (user_message may_response : String) (now : Nat) : String :=
  String.mk ((sha256hex (user_message ++ may_response ++ toString now)).data.take 16)

/-- The `ConversationMemory` value built by `save_conversation` before
the insert. -/
def mkTurn (user_message may_response : String) (now : Nat) : ConversationMemory :=
  let topics := extract_topics user_message
  let sentiment := analyze_message_sentiment user_message
  let importance := calculate_importance user_message topics sentiment
  { id := convId user_message may_response now
    user_message := user_message
    may_response := may_response
    topic := topics.headD "general"
    sentiment := sentiment
    importance := importance
    timestamp := now
    context_tags := topics }

/-- `MayConversationalAI.save_conversation`: a plain `INSERT` into a
table whose `id` column is the primary key. `storeFail` injects a
storage-layer failure; a primary-key collision raises an integrity
error; otherwise the new row is appended. -/
def save_conversation (db : List ConversationMemory) (user_message may_response : String)
    (now : Nat) (storeFail : Bool) : Except String (List ConversationMemory) :=
  if storeFail then Except.error "StorageUnavailable"
  else
    let memory := mkTurn user_message may_response now
    if db.any (fun row => decide (row.id = memory.id)) then
      Except.error "IntegrityError: UNIQUE constraint failed: conversations.id"
    else Except.ok (db ++ [memory])

/-- `MayConversationalAI.save_user_profile`: `INSERT OR REPLACE` upsert
of the singleton profile row. `storeFail` injects a storage-layer
failure. -/
def save_user_profile (dbProfile : Option UserProfile) (profile : UserProfile)
    (storeFail : Bool) : Except String (Option UserProfile) :=
  if storeFail then Except.error "StorageUnavailable" else Except.ok (some profile)

/-- Interest accumulation of `chat_with_may`: append each topic not
already present, keeping order. -/
def addInterests (interests : List String) (topics : List String) : List String :=
  topics.foldl (fun acc topic => if topic ∈ acc then acc else acc ++ [topic]) interests

/-- In-memory profile mutation performed by `chat_with_may` before the
upsert: refresh the last interaction and accumulate the message's
topics into the interests. -/
def updatedProfile (p : UserProfile) (message : String) (now : Nat) : UserProfile :=
  { p with last_interaction := now,
           interests := addInterests p.interests (extract_topics message) }

/-- Fixed apology returned by the orchestrator when any step raises. -/
def apologyText : String :=
  "I'm sorry, I'm having trouble processing that right now. Could you try again?"

/-- State visible to the orchestrator: the `conversations` table, the
persisted profile row, the in-memory `self.user_profile` object, and
the log of caught error causes. -/
structure MayState where
  conversations : List ConversationMemory
  db_profile : Option UserProfile
  mem_profile : Option UserProfile
  log : List String
deriving DecidableEq

/-- `MayConversationalAI.chat_with_may`: compose the reply, insert the
turn, mutate and upsert the loaded profile; any raised error is caught,
its cause logged, and the fixed apology returned in place of the reply.
The in-memory profile mutation precedes the upsert, so it survives an
upsert failure, exactly as in the source. -/
def chat_with_may (st : MayState) (message : String) (now : Nat) (u : Nat → Draw) (k : Nat)
    (convFail profFail : Bool) : String × MayState :=
  let response := (generate_thoughtful_response st.conversations message now u k).1
  match save_conversation st.conversations message response now convFail with
  | Except.error e => (apologyText, { st with log := st.log ++ [e] })
  | Except.ok convs =>
      match st.mem_profile with
      | none => (response, { st with conversations := convs })
      | some p =>
          let p' := updatedProfile p message now
          match save_user_profile st.db_profile p' profFail with
          | Except.error e =>
              (apologyText,
               { st with conversations := convs, mem_profile := some p',
                         log := st.log ++ [e] })
          | Except.ok dbp =>
              (response,
               { st with conversations := convs, mem_profile := some p', db_profile := dbp })

/-- Arguments of one orchestrator invocation in a call sequence. -/
structure CallParams where
  message : String
  now : Nat
  u : Nat → Draw
  k : Nat
  convFail : Bool
  profFail : Bool

/-- State after one orchestrator invocation. -/
def runStep (st : MayState) (c : CallParams) : MayState :=
  (chat_with_may st c.message c.now c.u c.k c.convFail c.profFail).2

/-- State after a sequence of orchestrator invocations. -/
def runSeq (st : MayState) (calls : List CallParams) : MayState :=
  calls.foldl runStep st

/-- Draw stream putting the specification example's three draws
0.5, 0.1, 0.9 at indices 0, 1, 2 (0 afterwards). -/
def drawsC7 : Nat → Draw :=
  fun n => [Draw.mk 1 2, Draw.mk 1 10, Draw.mk 9 10].getD n (Draw.mk 0 1)

/-- The same draw stream as `drawsC7`, written differently. -/
def drawsC7x : Nat → Draw :=
  fun n =>
    if n = 0 then Draw.mk 1 2
    else if n = 1 then Draw.mk 1 10
    else if n = 2 then Draw.mk 9 10
    else Draw.mk 0 1

/-- Loaded profile of the non-atomicity scenario. -/
def profile9 : UserProfile := ⟨"friend", [], [], [], 0, 1⟩

/-- Initial state of the non-atomicity scenario: empty conversation
store, persisted and loaded profile. -/
def st9 : MayState := ⟨[], some profile9, some profile9, []⟩

/-- One orchestrator run in which the conversation insert succeeds and
the profile upsert fails. -/
def run9 : String × MayState := chat_with_may st9 "hello" 0 (fun _ => ⟨1, 2⟩) 0 false true

theorem importance_closed_form (message : String) (topics : List String) (sentiment : String) :
    calculate_importance message topics sentiment =
      min 10 (max 1 (importanceBase message topics sentiment)) := by
  by_cases h1 : sentiment = "positive" ∨ sentiment = "negative" <;>
    by_cases h2 : ∃ topic ∈ topics, topic ∈ personal_topics <;>
      by_cases h3 : containsSubstr "?" message = true <;>
        by_cases h4 : 20 < (wordsOf message).length <;>
          simp [calculate_importance, importanceBase, h1, h2, h3, h4]

theorem importanceBase_ge_five (message : String) (topics : List String) (sentiment : String) :
    5 ≤ importanceBase message topics sentiment := by
  unfold importanceBase
  have h1 : 5 ≤ 5 + (if sentiment = "positive" ∨ sentiment = "negative" then 2 else 0) :=
    Nat.le_add_right 5 _
  exact le_trans (le_trans (le_trans h1 (Nat.le_add_right _ _)) (Nat.le_add_right _ _))
    (Nat.le_add_right _ _)

/-- C1: for every message, topic list and sentiment label,
`calculate_importance` equals the clamp to `[1,10]` of 5, plus 2 for a
positive or negative (non-neutral) sentiment, plus 2 for a topic among
family/faith/relationships/health, plus 1 for a question mark, plus 1
for more than 20 whitespace-split words; hence the result always lies
in `[1,10]`, and the message
"I am so happy about my family! Are you happy too?" with its extracted
sentiment and topics scores exactly 10. -/
theorem C1_importance_formula (message : String) (topics : List String) (sentiment : String) :
    calculate_importance message topics sentiment
      = min 10 (max 1 (importanceBase message topics sentiment))
    ∧ 1 ≤ calculate_importance message topics sentiment
    ∧ calculate_importance message topics sentiment ≤ 10
    ∧ calculate_importance "I am so happy about my family! Are you happy too?"
        (extract_topics "I am so happy about my family! Are you happy too?")
        (analyze_message_sentiment "I am so happy about my family! Are you happy too?")
        = 10 := by
  refine ⟨importance_closed_form message topics sentiment, ?_, ?_, by decide⟩
  · rw [importance_closed_form]
    exact le_min (by norm_num) (le_max_left 1 _)
  · rw [importance_closed_form]
    exact min_le_left _ _

/-- C10: the importance heuristics only add to the base score of 5, so
`calculate_importance` always returns at least 5, its range is `[5,10]`,
and the lower clamp to 1 never acts: the result is `min 10` of the raw
heuristic sum for every input. -/
theorem C10_importance_at_least_five (message : String) (topics : List String)
    (sentiment : String) :
    5 ≤ calculate_importance message topics sentiment
    ∧ calculate_importance message topics sentiment ≤ 10
    ∧ calculate_importance message topics sentiment
        = min 10 (importanceBase message topics sentiment) := by
  have h5 := importanceBase_ge_five message topics sentiment
  have hcf := importance_closed_form message topics sentiment
  have hmax : max 1 (importanceBase message topics sentiment)
      = importanceBase message topics sentiment :=
    max_eq_right (le_trans (by norm_num) h5)
  refine ⟨?_, ?_, ?_⟩
  · rw [hcf, hmax]
    exact le_min (by norm_num) h5
  · rw [hcf]
    exact min_le_left _ _
  · rw [hcf, hmax]

/-- C2: sentiment analysis compares the number of fixed positive-list
words and fixed negative-list words occurring in the lower-cased
message: more positive than negative gives "positive", more negative
gives "negative", otherwise "neutral"; in particular equal nonzero
counts give "neutral". -/
theorem C2_sentiment_counts (message : String) :
    analyze_message_sentiment message =
      (if negCount message < posCount message then "positive"
       else if posCount message < negCount message then "negative"
       else "neutral")
    ∧ (posCount message = negCount message → posCount message ≠ 0 →
        analyze_message_sentiment message = "neutral") := by
  refine ⟨rfl, fun heq _ => ?_⟩
  simp [analyze_message_sentiment, heq]

theorem C2_witness : analyze_message_sentiment "happy sad" = "neutral" :=
  (C2_sentiment_counts "happy sad").2 (by decide) (by decide)

theorem extract_topics_eq (message : String) :
    extract_topics message =
      (if matchedTopics message = [] then ["general"] else matchedTopics message) := by
  simp only [extract_topics, matchedTopics]
  rcases h : (topic_keywords.filter
      (fun p => p.2.any (fun keyword => containsSubstr keyword (lowerString message)))).map
      Prod.fst with _ | ⟨a, l⟩ <;> simp [h]

/-- C3: `extract_topics` returns exactly the categories of the fixed
six-category table whose keyword list has a keyword occurring as a
substring of the lower-cased message, in declaration order; when no
category matches — including the empty message — it returns
`["general"]`, and the result is never empty. -/
theorem C3_topics (message : String) :
    extract_topics message =
      (if matchedTopics message = [] then ["general"] else matchedTopics message)
    ∧ extract_topics message ≠ []
    ∧ extract_topics "" = ["general"] := by
  refine ⟨extract_topics_eq message, ?_, by decide⟩
  rw [extract_topics_eq]
  rcases h : matchedTopics message with _ | ⟨a, l⟩ <;> simp

theorem foldr_append_queryTopic_nil (limit : Nat) (topics : List String) :
    (topics.map (fun topic => queryTopic [] topic limit)).foldr (· ++ ·) [] = [] := by
  induction topics with
  | nil => rfl
  | cons t ts ih =>
      rw [List.map_cons, List.foldr_cons, ih]
      simp [queryTopic, sortRows]

/-- C4: the retriever equals its specification: extract topics, per
topic select matching rows (primary topic equal or serialized tag list
containing the topic), sort by importance then timestamp descending,
cap at `limit` per topic, concatenate in topic order without
deduplication, truncate to `limit`; on an empty store it returns the
empty sequence for every message, and its result never exceeds
`limit`. -/
theorem C4_retriever (db : List ConversationMemory) (message : String) (limit : Nat) :
    find_relevant_memories db message limit = find_relevant_spec db message limit
    ∧ find_relevant_memories [] message limit = []
    ∧ (find_relevant_memories db message limit).length ≤ limit := by
  refine ⟨rfl, ?_, ?_⟩
  · show ((((extract_topics message).map (fun topic => queryTopic [] topic limit)).foldr
      (· ++ ·) []).take limit) = []
    rw [foldr_append_queryTopic_nil]
    exact List.take_nil
  · show ((((extract_topics message).map (fun topic => queryTopic db topic limit)).foldr
      (· ++ ·) []).take limit).length ≤ limit
    rw [List.length_take]
    exact min_le_left _ _

/-- C5: whenever a persistence step inside `chat_with_may` fails — the
conversation insert or, with a loaded profile, the profile upsert — the
orchestrator never re-raises: it returns the fixed apology string (the
model's total return type has no error case) and appends the underlying
cause to the log. -/
theorem C5_orchestrator_catches (st : MayState) (message : String) (now : Nat)
    (u : Nat → Draw) (k : Nat) (convFail profFail : Bool)
    (h : convFail = true ∨ (st.mem_profile ≠ none ∧ profFail = true)) :
    (chat_with_may st message now u k convFail profFail).1 = apologyText
    ∧ ∃ e, (chat_with_may st message now u k convFail profFail).2.log = st.log ++ [e] := by
  simp only [chat_with_may]
  rcases hsc : save_conversation st.conversations message
      (generate_thoughtful_response st.conversations message now u k).1 now convFail
    with e | convs
  · exact ⟨rfl, e, rfl⟩
  · rcases h with hc | ⟨hp, hpf⟩
    · subst hc
      simp [save_conversation] at hsc
    · rcases Option.ne_none_iff_exists'.mp hp with ⟨p, hpe⟩
      rw [hpe]
      subst hpf
      exact ⟨rfl, "StorageUnavailable", rfl⟩

theorem C5_witness :
    (chat_with_may ⟨[], none, none, []⟩ "hello" 0 (fun _ => ⟨1, 2⟩) 0 true false).1
      = apologyText
    ∧ ∃ e, (chat_with_may ⟨[], none, none, []⟩ "hello" 0 (fun _ => ⟨1, 2⟩) 0
        true false).2.log = (⟨[], none, none, []⟩ : MayState).log ++ [e] :=
  C5_orchestrator_catches ⟨[], none, none, []⟩ "hello" 0 (fun _ => ⟨1, 2⟩) 0 true false
    (Or.inl rfl)

theorem prefix_addInterests (topics : List String) (interests : List String) :
    interests <+: addInterests interests topics := by
  induction topics generalizing interests with
  | nil => exact List.prefix_refl _
  | cons t ts ih =>
      unfold addInterests
      rw [List.foldl_cons]
      by_cases ht : t ∈ interests
      · rw [if_pos ht]
        exact ih interests
      · rw [if_neg ht]
        exact (List.prefix_append interests [t]).trans (ih _)

theorem nodup_addInterests (topics : List String) (interests : List String)
    (h : interests.Nodup) : (addInterests interests topics).Nodup := by
  induction topics generalizing interests with
  | nil => exact h
  | cons t ts ih =>
      unfold addInterests
      rw [List.foldl_cons]
      by_cases ht : t ∈ interests
      · rw [if_pos ht]
        exact ih interests h
      · rw [if_neg ht]
        exact ih _ (by simp [List.nodup_append, h, ht])

theorem chat_step_interests (st : MayState) (c : CallParams) (p : UserProfile)
    (hp : st.mem_profile = some p) :
    ∃ p', (runStep st c).mem_profile = some p'
      ∧ p.interests <+: p'.interests
      ∧ (p.interests.Nodup → p'.interests.Nodup) := by
  simp only [runStep, chat_with_may]
  rcases hsc : save_conversation st.conversations c.message
      (generate_thoughtful_response st.conversations c.message c.now c.u c.k).1 c.now
      c.convFail with e | convs
  · exact ⟨p, hp, List.prefix_refl _, id⟩
  · rw [hp]
    cases hb : c.profFail
    · exact ⟨updatedProfile p c.message c.now, rfl,
        prefix_addInterests _ _, fun h => nodup_addInterests _ _ h⟩
    · exact ⟨updatedProfile p c.message c.now, rfl,
        prefix_addInterests _ _, fun h => nodup_addInterests _ _ h⟩

theorem runSeq_interests (calls : List CallParams) (st : MayState) (p : UserProfile)
    (hp : st.mem_profile = some p) :
    ∃ p', (runSeq st calls).mem_profile = some p'
      ∧ p.interests <+: p'.interests
      ∧ (p.interests.Nodup → p'.interests.Nodup) := by
  induction calls generalizing st p with
  | nil => exact ⟨p, hp, List.prefix_refl _, id⟩
  | cons c cs ih =>
      obtain ⟨p1, h1, pre1, nd1⟩ := chat_step_interests st c p hp
      obtain ⟨p2, h2, pre2, nd2⟩ := ih (runStep st c) p1 h1
      exact ⟨p2, h2, pre1.trans pre2, fun h => nd2 (nd1 h)⟩

/-- C6: across every sequence of `chat_with_may` calls with a loaded
profile, the profile's interests list never shrinks — the old list
stays a leading segment of the new one — and, when it starts without
duplicates, it never acquires any. -/
theorem C6_interests_monotone (st : MayState) (calls : List CallParams) (p : UserProfile)
    (hp : st.mem_profile = some p) (hnd : p.interests.Nodup) :
    ∃ p', (runSeq st calls).mem_profile = some p'
      ∧ p.interests <+: p'.interests
      ∧ p'.interests.Nodup := by
  obtain ⟨p', h1, h2, h3⟩ := runSeq_interests calls st p hp
  exact ⟨p', h1, h2, h3 hnd⟩

theorem C6_witness :
    ∃ p', (runSeq ⟨[], some ⟨"friend", ["family"], [], [], 0, 1⟩,
        some ⟨"friend", ["family"], [], [], 0, 1⟩, []⟩
        [⟨"hello", 0, fun _ => ⟨1, 2⟩, 0, false, false⟩]).mem_profile = some p'
      ∧ ["family"] <+: p'.interests
      ∧ p'.interests.Nodup :=
  C6_interests_monotone _ _ ⟨"friend", ["family"], [], [], 0, 1⟩ rfl (by decide)

/-- C7 counterexample: with the draw sequence 0.5, 0.1, 0.9 the
composer does not produce the output the claim's example predicts
(supportive-opener index 0 with template index 0 of the family pool):
on the negative-sentiment family message below with empty history, no
callback draw is consumed, so 0.5 selects opener index 1, not 0. -/
theorem C7_counterexample :
    (generate_thoughtful_response [] "I am sad about my family" 0 drawsC7 0).1
      ≠ "I can sense this is weighing on you. Family is such a blessing. How has your family been doing?" := by
  decide

/-- C7 amended: the composer is a pure function of the message, the
store contents, the current instant and the draw stream, so two runs on
equal inputs and pointwise-equal draw streams are byte-identical; with
draws 0.5, 0.1, 0.9 on the negative-sentiment family message and empty
history, the callback consumes no draw, 0.5 selects supportive opener
index 1, 0.1 selects template index 0 and 0.9 skips the spark. In the
source the draws come from the global `random` module (modelled here as
the explicit stream), not from an injected dependency. -/
theorem C7_composer_deterministic :
    (∀ (db : List ConversationMemory) (message : String) (now : Nat) (u v : Nat → Draw)
      (k : Nat), (∀ n, u n = v n) →
        generate_thoughtful_response db message now u k
          = generate_thoughtful_response db message now v k)
    ∧ (generate_thoughtful_response [] "I am sad about my family" 0 drawsC7 0).1
        = "That sounds challenging. Family is such a blessing. How has your family been doing?" := by
  refine ⟨fun db message now u v k h => ?_, by decide⟩
  rw [funext h]

theorem C7_witness :
    generate_thoughtful_response [] "I am sad about my family" 0 drawsC7 0
      = generate_thoughtful_response [] "I am sad about my family" 0 drawsC7x 0 :=
  C7_composer_deterministic.1 [] "I am sad about my family" 0 drawsC7 drawsC7x 0
    (fun n => by
      rcases n with _ | n
      · rfl
      rcases n with _ | n
      · rfl
      rcases n with _ | n
      · rfl
      · rfl)

/-- C8: the identifier of a saved turn is the deterministic function
`convId` of the user message, the reply and the creation instant; a
save with a fresh identifier appends the turn as a new row at the end
of the store (identical content at another instant is not
deduplicated), and an identifier collision makes the plain insert fail
on the primary key instead of deduplicating or replacing. -/
theorem C8_turn_identifier (db : List ConversationMemory) (user_message may_response : String)
    (now : Nat) :
    (mkTurn user_message may_response now).id = convId user_message may_response now
    ∧ ((∀ row ∈ db, row.id ≠ convId user_message may_response now) →
        save_conversation db user_message may_response now false
          = Except.ok (db ++ [mkTurn user_message may_response now]))
    ∧ ((∃ row ∈ db, row.id = convId user_message may_response now) →
        ∃ e, save_conversation db user_message may_response now false = Except.error e) := by
  refine ⟨rfl, fun h => ?_, fun ⟨row, hrow, hid⟩ => ?_⟩
  · have hany : db.any
        (fun row => decide (row.id = (mkTurn user_message may_response now).id)) = false := by
      rw [Bool.eq_false_iff]
      intro hc
      rw [List.any_eq_true] at hc
      obtain ⟨r, hm, hd⟩ := hc
      exact h r hm (by simpa using hd)
    simp [save_conversation, hany]
  · have hany : db.any
        (fun row => decide (row.id = (mkTurn user_message may_response now).id)) = true := by
      rw [List.any_eq_true]
      exact ⟨row, hrow, by simpa using hid⟩
    exact ⟨"IntegrityError: UNIQUE constraint failed: conversations.id",
      by simp [save_conversation, hany]⟩

theorem C8_witness :
    (mkTurn "hi" "yo" 0).id = convId "hi" "yo" 0
    ∧ save_conversation [] "hi" "yo" 0 false = Except.ok [mkTurn "hi" "yo" 0]
    ∧ ∃ e, save_conversation [mkTurn "hi" "yo" 0] "hi" "yo" 0 false = Except.error e := by
  refine ⟨(C8_turn_identifier [] "hi" "yo" 0).1, ?_, ?_⟩
  · have h := (C8_turn_identifier [] "hi" "yo" 0).2.1
      (fun row hr => absurd hr (List.not_mem_nil row))
    simpa using h
  · exact (C8_turn_identifier [mkTurn "hi" "yo" 0] "hi" "yo" 0).2.2
      ⟨mkTurn "hi" "yo" 0, by simp, rfl⟩

/-- C9: `chat_with_may` is not atomic on failure: in the concrete run
`run9` the conversation insert succeeds and the profile upsert then
fails, so the caller receives the apology while the new turn stays
persisted with the composed reply — which differs from the returned
string — and the stored profile is not rolled forward or back. -/
theorem C9_not_atomic :
    run9.1 = apologyText
    ∧ run9.2.conversations.map (fun row => (row.user_message, row.may_response))
        = [("hello", "That sounds meaningful to you. Could you tell me more?")]
    ∧ ("That sounds meaningful to you. Could you tell me more?" : String) ≠ apologyText
    ∧ run9.2.db_profile = some profile9 :=
  ⟨rfl, rfl, by decide, rfl⟩
